import Mathlib

/-!
Verification development for `scripts/smokeping-add.py` (ansible-dn42).

The Python script is shallowly embedded below.  External collaborators
(DNS resolution via `socket.getaddrinfo` / `dns.resolver`, the HTTP
transport of `requests`, and the `pycountry` ISO-3166 table) are modelled
as explicit inputs / finite tables; everything the script itself computes
(regex candidate extraction, `ipaddress` parsing and classification,
the chunked body read, the formatting logic of `fmt_smokeping`, and the
control flow of `scrape_ips` / `get_ipinfo`) is translated function by
function from the source.

Strings are modelled at the code-point level (`List Char`), matching
Python `str` semantics; the ASCII fragments of Python's Unicode-aware
`str.upper` / `str.title` / `\d` / `\b` are used, which agree with the
real semantics on all inputs considered in the theorems.
-/

set_option maxRecDepth 4096

namespace SmokepingAdd

/-! ## Character helpers -/

/-- ASCII decimal digit test (Python `\d` restricted to ASCII). -/
def isDigitCh (c : Char) : Bool := '0' ≤ c && c ≤ '9'

/-- ASCII word character, as used by `\b` in the IPv4 pattern. -/
def isWordCh (c : Char) : Bool :=
  isDigitCh c || ('a' ≤ c && c ≤ 'z') || ('A' ≤ c && c ≤ 'Z') || c == '_'

/-- ASCII letter test (Python `str.isalpha` restricted to ASCII). -/
def isAlphaCh (c : Char) : Bool := ('a' ≤ c && c ≤ 'z') || ('A' ≤ c && c ≤ 'Z')

/-- ASCII uppercase of one character (Python `str.upper`, ASCII fragment). -/
def upperCh (c : Char) : Char :=
  if 'a' ≤ c && c ≤ 'z' then Char.ofNat (c.toNat - 32) else c

/-- ASCII lowercase of one character. -/
def lowerCh (c : Char) : Char :=
  if 'A' ≤ c && c ≤ 'Z' then Char.ofNat (c.toNat + 32) else c

/-- Python whitespace characters stripped by `str.strip` (ASCII fragment). -/
def isSpaceCh (c : Char) : Bool :=
  c == ' ' || c == '\t' || c == '\n' || c == '\r' ||
  c == Char.ofNat 11 || c == Char.ofNat 12

/-! ## Python string operations (on `List Char` / `String`) -/

/-- Python `str.upper` (ASCII fragment). -/
def pyUpper (s : String) : String := String.mk (s.data.map upperCh)

/-- One step of Python `str.title`: a letter is uppercased when the previous
character is not a letter, lowercased otherwise (ASCII fragment). -/
def pyTitleGo : Bool → List Char → List Char
  | _, [] => []
  | prevAlpha, c :: rest =>
    let mapped := if isAlphaCh c then (if prevAlpha then lowerCh c else upperCh c) else c
    mapped :: pyTitleGo (isAlphaCh c) rest

/-- Python `str.title` (ASCII fragment). -/
def pyTitle (s : String) : String := String.mk (pyTitleGo false s.data)

/-- Python `str.strip` (ASCII whitespace fragment). -/
def pyStrip (s : String) : String :=
  String.mk (((s.data.dropWhile isSpaceCh).reverse.dropWhile isSpaceCh).reverse)

/-- Python `str.split(sep)` for a one-character separator. -/
def splitChar (sep : Char) : List Char → List (List Char)
  | [] => [[]]
  | c :: rest =>
    let r := splitChar sep rest
    if c == sep then [] :: r
    else
      match r with
      | [] => [[c]]
      | h :: t => (c :: h) :: t

/-- Python truthiness of an optional string (`None` and `''` are falsy). -/
def pyTruthy : Option String → Bool
  | none => false
  | some s => !s.data.isEmpty

/-- Python `needle in hay` substring containment. -/
def containsSub (needle hay : List Char) : Bool :=
  (List.range (hay.length + 1)).any fun i => needle.isPrefixOf (hay.drop i)

/-- Python `str.replace(pat, rep)`: replace every non-overlapping occurrence,
left to right.  `pat` is assumed non-empty at every use site. -/
def replaceAll (pat rep : List Char) : List Char → List Char
  | [] => []
  | c :: rest =>
    if pat.isPrefixOf (c :: rest) && !pat.isEmpty then
      rep ++ replaceAll pat rep (rest.drop (pat.length - 1))
    else
      c :: replaceAll pat rep rest
termination_by l => l.length
decreasing_by
  · simp only [List.length_drop, List.length_cons]
    omega
  · simp only [List.length_cons]
    omega

/-- Decimal digit character for `n % 10` (Python `str` of a nonnegative int). -/
def digitCh (n : Nat) : Char := Char.ofNat (48 + n % 10)

/-- Fuelled accumulator loop for the decimal representation of a `Nat`. -/
def natDigitsGo : Nat → Nat → List Char → List Char
  | 0, _, acc => acc
  | fuel + 1, n, acc => if n = 0 then acc else natDigitsGo fuel (n / 10) (digitCh n :: acc)

/-- Decimal representation of a `Nat` (Python `str(int)` for nonnegative ints). -/
def natDigits (n : Nat) : List Char :=
  if n = 0 then ['0'] else natDigitsGo (n + 1) n []

/-! ## Addresses: parsing and classification (CPython `ipaddress`)

The script delegates parsing and the `is_global` predicate to the standard
`ipaddress` module; the definitions below are modelled from CPython's
`ipaddress` source (the textual-parsing rules of `IPv4Address` /
`IPv6Address` and the `_private_networks` registries behind `is_private`
and `is_global`). -/

/-- A parsed IP address, as produced by `ipaddress.ip_address`:
either an `IPv4Address` (32-bit value) or an `IPv6Address` (128-bit value). -/
inductive Addr where
  | v4 (val : Nat)
  | v6 (val : Nat)
  deriving DecidableEq, Repr

/-- `isinstance(ip, ipaddress.IPv4Address)` -/
def Addr.isV4 : Addr → Bool
  | .v4 _ => true
  | .v6 _ => false

/-- `isinstance(ip, ipaddress.IPv6Address)` -/
def Addr.isV6 : Addr → Bool
  | .v4 _ => false
  | .v6 _ => true

/-- One dotted-quad octet, per CPython `IPv4Address._parse_octet`:
1 to 3 ASCII digits, no leading zero (unless the octet is exactly `0`),
value at most 255. -/
def parseOctet (p : List Char) : Option Nat :=
  if p.length = 0 || p.length > 3 then none
  else if !p.all isDigitCh then none
  else if p.length > 1 && p.headD '0' == '0' then none
  else
    let v := p.foldl (fun acc c => acc * 10 + (c.toNat - 48)) (0 : Nat)
    if v > 255 then none else some v

/-- CPython `IPv4Address` textual parsing: exactly four octets. -/
def parse_ipv4 (s : String) : Option Nat :=
  match splitChar '.' s.data with
  | [a, b, c, d] => do
    let va ← parseOctet a
    let vb ← parseOctet b
    let vc ← parseOctet c
    let vd ← parseOctet d
    pure (((va * 256 + vb) * 256 + vc) * 256 + vd)
  | _ => none

/-- Hexadecimal digit test, per CPython `_HEX_DIGITS` (`0-9a-fA-F`). -/
def isHexDigitCh (c : Char) : Bool :=
  isDigitCh c || ('a' ≤ c && c ≤ 'f') || ('A' ≤ c && c ≤ 'F')

/-- Value of a hexadecimal digit character. -/
def hexVal (c : Char) : Nat :=
  if isDigitCh c then c.toNat - 48
  else if 'a' ≤ c && c ≤ 'f' then c.toNat - 87
  else c.toNat - 55

/-- One hextet, per CPython `IPv6Address._parse_hextet`: 1 to 4 hex digits. -/
def parseHextet (p : List Char) : Option Nat :=
  if p.length = 0 || p.length > 4 then none
  else if !p.all isHexDigitCh then none
  else some (p.foldl (fun acc c => acc * 16 + hexVal c) 0)

/-- CPython `IPv6Address._ip_int_from_string`, for strings not containing
`'.'` (the embedded-IPv4 form is unreachable here: the scraper's IPv6
pattern cannot produce a dot, and every string this program hands to the
IPv6 parser comes from that pattern). -/
def parse_ipv6 (s : String) : Option Nat :=
  let parts := splitChar ':' s.data
  let L := parts.length
  if L < 3 then none
  else if L > 9 then none
  else
    let emptyAt : Nat → Bool := fun i => (parts.getD i ['x']).isEmpty
    let interior := (List.range L).filter fun i => decide (1 ≤ i) && decide (i + 1 < L) && emptyAt i
    match interior with
    | [] =>
      if L ≠ 8 then none
      else if emptyAt 0 then none
      else if emptyAt (L - 1) then none
      else do
        let vals ← parts.mapM parseHextet
        pure (vals.foldl (fun acc h => acc * 65536 + h) 0)
    | [skip] =>
      let hi0 := skip
      let lo0 := L - skip - 1
      let hiAdj : Option Nat :=
        if emptyAt 0 then (if hi0 = 1 then some 0 else none) else some hi0
      let loAdj : Option Nat :=
        if emptyAt (L - 1) then (if lo0 = 1 then some 0 else none) else some lo0
      match hiAdj, loAdj with
      | some hi, some lo =>
        if hi + lo ≥ 8 then none
        else do
          let hiVals ← (parts.take hi).mapM parseHextet
          let loVals ← (parts.drop (L - lo)).mapM parseHextet
          let allVals := hiVals ++ List.replicate (8 - (hi + lo)) 0 ++ loVals
          pure (allVals.foldl (fun acc h => acc * 65536 + h) 0)
      | _, _ => none
    | _ => none

/-- IPv4 value from dotted-quad components. -/
def mkV4 (a b c d : Nat) : Nat := ((a * 256 + b) * 256 + c) * 256 + d

/-- IPv6 value from eight hextet components. -/
def mkV6 (g0 g1 g2 g3 g4 g5 g6 g7 : Nat) : Nat :=
  [g0, g1, g2, g3, g4, g5, g6, g7].foldl (fun acc h => acc * 65536 + h) 0

/-- Membership of a 32-bit value in an IPv4 network of the given prefix length. -/
def inNet4 (v base p : Nat) : Bool := v / 2 ^ (32 - p) == base / 2 ^ (32 - p)

/-- Membership of a 128-bit value in an IPv6 network of the given prefix length. -/
def inNet6 (v base p : Nat) : Bool := v / 2 ^ (128 - p) == base / 2 ^ (128 - p)

/-- CPython `IPv4Address.is_private`: the `_private_networks` registry. -/
def is_private_v4 (v : Nat) : Bool :=
  inNet4 v (mkV4 0 0 0 0) 8 ||
  inNet4 v (mkV4 10 0 0 0) 8 ||
  inNet4 v (mkV4 127 0 0 0) 8 ||
  inNet4 v (mkV4 169 254 0 0) 16 ||
  inNet4 v (mkV4 172 16 0 0) 12 ||
  inNet4 v (mkV4 192 0 0 0) 29 ||
  inNet4 v (mkV4 192 0 0 170) 31 ||
  inNet4 v (mkV4 192 0 2 0) 24 ||
  inNet4 v (mkV4 192 168 0 0) 16 ||
  inNet4 v (mkV4 198 18 0 0) 15 ||
  inNet4 v (mkV4 198 51 100 0) 24 ||
  inNet4 v (mkV4 203 0 113 0) 24 ||
  inNet4 v (mkV4 240 0 0 0) 4 ||
  inNet4 v (mkV4 255 255 255 255) 32

/-- CPython `IPv4Address.is_global`: outside the shared-address space
`100.64.0.0/10` and not private. -/
def is_global_v4 (v : Nat) : Bool :=
  !inNet4 v (mkV4 100 64 0 0) 10 && !is_private_v4 v

/-- CPython `IPv6Address.is_private`: the `_private_networks` registry. -/
def is_private_v6 (v : Nat) : Bool :=
  inNet6 v (mkV6 0 0 0 0 0 0 0 1) 128 ||
  inNet6 v (mkV6 0 0 0 0 0 0 0 0) 128 ||
  inNet6 v (mkV6 0 0 0 0 0 0xffff 0 0) 96 ||
  inNet6 v (mkV6 0x100 0 0 0 0 0 0 0) 64 ||
  inNet6 v (mkV6 0x2001 0 0 0 0 0 0 0) 23 ||
  inNet6 v (mkV6 0x2001 2 0 0 0 0 0 0) 48 ||
  inNet6 v (mkV6 0x2001 0xdb8 0 0 0 0 0 0) 32 ||
  inNet6 v (mkV6 0x2001 0x10 0 0 0 0 0 0) 28 ||
  inNet6 v (mkV6 0xfc00 0 0 0 0 0 0 0) 7 ||
  inNet6 v (mkV6 0xfe80 0 0 0 0 0 0 0) 10

/-- CPython `IPv6Address.is_global`: not private. -/
def is_global_v6 (v : Nat) : Bool := !is_private_v6 v

/-! ## The module-level regular expressions

`IP4_RE = ((25[0-5]|(2[0-4]|1\d|[1-9]|)\d)\.?\b){4}` and
`IP6_RE = [a-fA-F0-9]{1,4}:[a-fA-f0-9:]+` are executed with Python `re`
backtracking semantics: a scan for the leftmost match position, and at
each position a depth-first search through the alternatives in written
order (greedy quantifiers first).  `finditer` yields non-overlapping
matches, resuming the scan at the end of the previous match. -/

/-- Character of `s` at index `i`, if any. -/
def charAt (s : List Char) (i : Nat) : Option Char := s.get? i

/-- Whether the optional character is a word character (absent = no). -/
def optWord (o : Option Char) : Bool :=
  match o with
  | some c => isWordCh c
  | none => false

/-- Python `\b`: a word boundary at position `i` of `s`. -/
def wordBoundary (s : List Char) (i : Nat) : Bool :=
  optWord (if i = 0 then none else charAt s (i - 1)) != optWord (charAt s i)

/-- End positions (in alternative preference order) of the octet group
`(25[0-5]|(2[0-4]|1\d|[1-9]|)\d)` matched at position `i`. -/
def octetEnds (s : List Char) (i : Nat) : List Nat :=
  let alt255 : List Nat :=
    match charAt s i, charAt s (i + 1), charAt s (i + 2) with
    | some c0, some c1, some c2 =>
      if c0 == '2' && c1 == '5' && ('0' ≤ c2 && c2 ≤ '5') then [i + 3] else []
    | _, _, _ => []
  let pre2x : List Nat :=
    match charAt s i, charAt s (i + 1) with
    | some c0, some c1 => if c0 == '2' && ('0' ≤ c1 && c1 ≤ '4') then [i + 2] else []
    | _, _ => []
  let pre1d : List Nat :=
    match charAt s i, charAt s (i + 1) with
    | some c0, some c1 => if c0 == '1' && isDigitCh c1 then [i + 2] else []
    | _, _ => []
  let pre19 : List Nat :=
    match charAt s i with
    | some c0 => if '1' ≤ c0 && c0 ≤ '9' then [i + 1] else []
    | none => []
  let prefixes := pre2x ++ pre1d ++ pre19 ++ [i]
  alt255 ++ prefixes.filterMap fun j =>
    match charAt s j with
    | some c => if isDigitCh c then some (j + 1) else none
    | none => none

/-- End positions (preference order) of one repetition `(octet)\.?\b`
matched at position `i`: octet, then the greedy optional dot, then the
word-boundary test. -/
def repEnds (s : List Char) (i : Nat) : List Nat :=
  (octetEnds s i).flatMap fun j =>
    (if charAt s j = some '.' then [j + 1, j] else [j]).filter fun k => wordBoundary s k

/-- Backtracking match of `k` repetitions of `(octet)\.?\b` starting at `i`;
returns the end position of the first (preference-order) full match. -/
def matchReps (s : List Char) : Nat → Nat → Option Nat
  | i, 0 => some i
  | i, k + 1 => (repEnds s i).findSome? fun j => matchReps s j k

/-- Scan loop of `IP4_RE.finditer`: leftmost match, then resume at its end. -/
def finditer4Go (s : List Char) : Nat → Nat → List String
  | _, 0 => []
  | i, fuel + 1 =>
    if i > s.length then []
    else
      match matchReps s i 4 with
      | some e => String.mk ((s.drop i).take (e - i)) :: finditer4Go s e fuel
      | none => finditer4Go s (i + 1) fuel

/-- All matches of `IP4_RE` in `text`, in order (`group(0)` of each). -/
def finditer4 (text : String) : List String :=
  finditer4Go text.data 0 (text.data.length + 1)

/-- The second character class of `IP6_RE`, `[a-fA-f0-9:]`: note the source
writes `A-f`, a range that spans codepoints 65–102 and therefore also
admits `G-Z` and the punctuation between `Z` and `a`. -/
def isIp6TailCh (c : Char) : Bool :=
  (65 ≤ c.toNat && c.toNat ≤ 102) || isDigitCh c || c == ':'

/-- Match of `IP6_RE` at position `i`: greedy `[a-fA-F0-9]{1,4}` (4 first,
backtracking down to 1), a literal `':'`, then a maximal non-empty run of
the tail class. -/
def match6At (s : List Char) (i : Nat) : Option Nat :=
  let tryLen : Nat → Option Nat := fun n =>
    let pre := (s.drop i).take n
    if pre.length = n && pre.all isHexDigitCh && charAt s (i + n) = some ':' then
      let run := ((s.drop (i + n + 1)).takeWhile isIp6TailCh).length
      if run ≥ 1 then some (i + n + 1 + run) else none
    else none
  ((tryLen 4).orElse fun _ => (tryLen 3).orElse fun _ => (tryLen 2).orElse fun _ => tryLen 1)

/-- Scan loop of `IP6_RE.finditer`. -/
def finditer6Go (s : List Char) : Nat → Nat → List String
  | _, 0 => []
  | i, fuel + 1 =>
    if i > s.length then []
    else
      match match6At s i with
      | some e => String.mk ((s.drop i).take (e - i)) :: finditer6Go s e fuel
      | none => finditer6Go s (i + 1) fuel

/-- All matches of `IP6_RE` in `text`, in order (`group(0)` of each). -/
def finditer6 (text : String) : List String :=
  finditer6Go text.data 0 (text.data.length + 1)

/-! ## `get_ipinfo`: best-effort ASN lookup -/

/-- Outcome of `dns.resolver.resolve(query, 'TXT')`: either a raised
`dns.exception.DNSException` (class name and message), or a non-empty
answer (the library raises `NoAnswer` rather than returning an empty
record set, so success always carries a first record). -/
inductive DnsOutcome where
  | ok (first : String) (rest : List String)
  | err (cls msg : String)

/-- Decimal reversed dotted quad of an IPv4 value, i.e.
`'.'.join(reversed(str(ip).split('.')))` from CPython `_reverse_pointer`. -/
def revDotted4 (v : Nat) : List Char :=
  natDigits (v % 256) ++ '.' :: natDigits (v / 256 % 256) ++
  '.' :: natDigits (v / 65536 % 256) ++ '.' :: natDigits (v / 16777216 % 256)

/-- `IPv4Address.reverse_pointer`. -/
def reverse_pointer4 (v : Nat) : List Char := revDotted4 v ++ ".in-addr.arpa".data

/-- Lowercase hexadecimal digit character for `n < 16`. -/
def hexCh (n : Nat) : Char := Char.ofNat (if n < 10 then 48 + n else 87 + n)

/-- `count` nibbles of `v`, least significant first, dot-separated: the
reversal of the colon-stripped `exploded` form used by CPython
`IPv6Address._reverse_pointer` (`self.exploded[::-1].replace(':','')`
joined with dots). -/
def revNibblesGo (v : Nat) : Nat → List Char
  | 0 => []
  | 1 => [hexCh (v % 16)]
  | count + 2 => hexCh (v % 16) :: '.' :: revNibblesGo (v / 16) (count + 1)

/-- The 32 dot-separated reversed nibbles of an IPv6 value. -/
def revNibbles6 (v : Nat) : List Char := revNibblesGo v 32

/-- `IPv6Address.reverse_pointer`. -/
def reverse_pointer6 (v : Nat) : List Char := revNibbles6 v ++ ".ip6.arpa".data

/-- `get_ipinfo(ip)` (source lines 15–27), with the DNS resolver passed in
as an oracle.  The argument is the already-parsed address: the script only
calls `get_ipinfo` on strings that `ipaddress.ip_address` has just parsed
successfully, so the re-parse at line 16 cannot fail.  Never raises: any
`DNSException` is rendered as `f'{e.__class__}: {e}'`. -/
def get_ipinfo (resolve : String → DnsOutcome) (ip : Addr) : String :=
  let dns_query : String :=
    match ip with
    | .v4 v => String.mk (replaceAll "in-addr.arpa".data "origin.asn.cymru.com".data (reverse_pointer4 v))
    | .v6 v => String.mk (replaceAll "ip6.arpa".data "origin6.asn.cymru.com".data (reverse_pointer6 v))
  match resolve dns_query with
  | .err cls msg => cls ++ ": " ++ msg
  | .ok first _ => first

/-- The query name described by the spec: the address's reverse-pointer
form rewritten to the Cymru origin zone.  Stated independently of
`str.replace`; the theorem for C8 proves `get_ipinfo` queries exactly
this name. -/
def cymru_query : Addr → String
  | .v4 v => String.mk (revDotted4 v ++ ".origin.asn.cymru.com".data)
  | .v6 v => String.mk (revNibbles6 v ++ ".origin6.asn.cymru.com".data)

/-! ## `scrape_ips` (source lines 37–92)

`socket.getaddrinfo` and the HTTP transport are external collaborators:
the resolved address set is passed as a list (Python iterates a `set`,
whose order the claims do not depend on), and the HTTP response is a
record of `raise_for_status` success, the optional parsed
`Content-Length` header, and the lossily UTF-8-decoded chunks that
`iter_content` would yield.  `print` calls (including the inline
`get_ipinfo` report, which never raises) have no effect on the returned
value and are not tracked. -/

/-- An HTTP response as consumed by `scrape_ips`. -/
structure HttpResponse where
  ok : Bool
  contentLength : Option Nat
  chunks : List String

/-- The exceptions `scrape_ips` can raise. -/
inductive ScrapeErr where
  /-- `requests.HTTPError` from `raise_for_status` -/
  | httpError
  /-- `ValueError('HTTP response too large ...')` (line 60) -/
  | sizeExceeded (contentLength maxsize : Nat)
  /-- `NameError`: `text` is never assigned when there are no chunks -/
  | nameError
  /-- uncaught `ValueError` from `ip_address` in the IPv4 loop (line 70) -/
  | valueError
  /-- `AssertionError` from `assert ipv4 or ipv6` (line 91) -/
  | assertionError
  deriving DecidableEq, Repr

/-- The `force_dns` selection loop (lines 47–53). -/
def dnsLoop (netloc : String) : List Addr → Option String → Option String → Option String × Option String
  | [], v4, v6 => (v4, v6)
  | ip :: rest, v4, v6 =>
    if pyTruthy v4 && pyTruthy v6 then (v4, v6)
    else
      dnsLoop netloc rest
        (if !pyTruthy v4 && ip.isV4 then some netloc else v4)
        (if !pyTruthy v6 && ip.isV6 then some netloc else v6)

/-- The chunked body read (lines 61–66).  Returns the final value of the
loop variable `text` — the Python code *reassigns* `text` each iteration —
together with the number of chunks pulled from `iter_content` (a chunk is
obtained from the iterator before the `total_length` check, so a chunk
that triggers the break still counts as read). -/
def readChunks (maxsize : Nat) : List String → Nat → Option String → Option String × Nat
  | [], _, text => (text, 0)
  | c :: rest, total, text =>
    if total > maxsize then (text, 1)
    else
      let r := readChunks maxsize rest (total + c.data.length) (some c)
      (r.1, r.2 + 1)

/-- The IPv4 candidate loop (lines 68–76).  `none` models the uncaught
`ValueError` when a matched substring (for example one with a trailing
dot) fails `ip_address` — the IPv4 pattern yields only digits and dots,
which can never parse as IPv6 (that needs colons), so `ip_address`
failing is exactly `parse_ipv4` failing; `some acc` is the final value of the variable
`ipv4`, which is assigned the candidate *before* the `is_global` test and
therefore retains the last rejected candidate when the loop exhausts. -/
def scanV4 (netloc : String) (dns : List Addr) : List String → Option String → Option (Option String)
  | [], acc => some acc
  | m :: rest, _ =>
    match parse_ipv4 m with
    | none => none
    | some v =>
      if is_global_v4 v then
        some (some (if dns.contains (Addr.v4 v) then netloc else m))
      else scanV4 netloc dns rest (some m)

/-- The IPv6 candidate loop (lines 77–90).  Every IPv6-pattern match
contains a colon, so `ip_address` can only succeed via `IPv6Address`
(`parse_ipv6`).  A parse failure is caught
(`except ValueError`) and resets `ipv6` to `None`; the `else: break` of
the `try` statement runs only when the candidate parsed and was global
(`continue` skips it), so a non-global parse keeps the candidate string
in `ipv6`, mirroring the IPv4 loop's leak. -/
def scanV6 (netloc : String) (dns : List Addr) : List String → Option String → Option String
  | [], acc => acc
  | m :: rest, _ =>
    match parse_ipv6 m with
    | none => scanV6 netloc dns rest none
    | some v =>
      if is_global_v6 v then
        some (if dns.contains (Addr.v6 v) then netloc else m)
      else scanV6 netloc dns rest (some m)

/-- `scrape_ips` (lines 37–92): the returned pair, or the raised
exception, together with the number of chunks read from the body.
`netloc` and `dnsResults` are the results of the URL parse and of
`socket.getaddrinfo` (both external; resolution failure would raise
before any of the modelled logic runs). -/
def scrape_ips (netloc : String) (dnsResults : List Addr) (resp : HttpResponse)
    (forceDns : Bool) (maxsize : Nat) :
    Except ScrapeErr (Option String × Option String) × Nat :=
  if forceDns then
    (Except.ok (dnsLoop netloc dnsResults none none), 0)
  else if resp.ok = false then
    (Except.error ScrapeErr.httpError, 0)
  else
    let clen := resp.contentLength.getD 0
    if clen > maxsize then
      (Except.error (ScrapeErr.sizeExceeded clen maxsize), 0)
    else
      let tk := readChunks maxsize resp.chunks 0 none
      match tk.1 with
      | none => (Except.error ScrapeErr.nameError, tk.2)
      | some text =>
        match scanV4 netloc dnsResults (finditer4 text) none with
        | none => (Except.error ScrapeErr.valueError, tk.2)
        | some ipv4 =>
          let ipv6 := scanV6 netloc dnsResults (finditer6 text) none
          if pyTruthy ipv4 || pyTruthy ipv6 then
            (Except.ok (ipv4, ipv6), tk.2)
          else
            (Except.error ScrapeErr.assertionError, tk.2)

/-! ## `fmt_smokeping` (source lines 99–140) -/

/-- A `pycountry` database entry, as used by the script (`.name`; the
`common_name` attribute is never reached, see `fmt_smokeping`). -/
structure CountryEntry where
  name : String
  deriving DecidableEq

/-- Fragment of the external `pycountry` ISO-3166 alpha-2 table covering
every code this development evaluates concretely; theorems about unknown
codes take the lookup result as a hypothesis, so the fragment's extent is
immaterial to them. -/
def pycountry_get (alpha2 : String) : Option CountryEntry :=
  if alpha2 = "US" then some ⟨"United States"⟩
  else if alpha2 = "CA" then some ⟨"Canada"⟩
  else if alpha2 = "GB" then some ⟨"United Kingdom"⟩
  else if alpha2 = "HK" then some ⟨"Hong Kong"⟩
  else if alpha2 = "MO" then some ⟨"Macao"⟩
  else if alpha2 = "RU" then some ⟨"Russian Federation"⟩
  else if alpha2 = "SG" then some ⟨"Singapore"⟩
  else if alpha2 = "DE" then some ⟨"Germany"⟩
  else if alpha2 = "FR" then some ⟨"France"⟩
  else if alpha2 = "CN" then some ⟨"China"⟩
  else if alpha2 = "IN" then some ⟨"India"⟩
  else if alpha2 = "BR" then some ⟨"Brazil"⟩
  else if alpha2 = "JP" then some ⟨"Japan"⟩
  else if alpha2 = "AU" then some ⟨"Australia"⟩
  else if alpha2 = "NL" then some ⟨"Netherlands"⟩
  else none

/-- The two `assert` statements of `fmt_smokeping`. -/
inductive FmtErr where
  /-- `assert levels >= 0` (line 100) -/
  | assertLevels
  /-- `assert pycountry_entry` (line 111) -/
  | assertCountry
  deriving DecidableEq, Repr

/-- `fmt_smokeping` (lines 99–140): the list of printed lines together
with the raised `AssertionError`, if any.  Note the header line is
printed (line 105) before the country lookup is validated (line 111). -/
def fmt_smokeping (entryName address isp country0 province0 city0 : String)
    (levels : Int) : List String × Option FmtErr :=
  if levels < 0 then ([], some FmtErr.assertLevels)
  else
    let hdr := String.mk (List.replicate levels.toNat '+')
    let country := pyUpper country0
    let province := pyUpper province0
    let city := pyTitle city0
    let line1 := hdr ++ " " ++ entryName
    let pcCode := if country = "UK" then "GB" else country
    match pycountry_get pcCode with
    | none => ([line1], some FmtErr.assertCountry)
    | some entry =>
      let ispShort := pyStrip (String.mk ((splitChar '@' isp.data).headD []))
      -- (ccPref, city after the branch's mutations, loc)
      let branch : String × String × String :=
        if country = "CA" ∨ country = "US" then
          ("[" ++ country ++ "/" ++ province ++ "]", city,
           city ++ ", " ++ province ++ ", " ++ country)
        else
          let cityB := if country = "HK" ∨ country = "MO" then entry.name else city
          -- line 126 reads getattr(pycountry_country, 'common_name', pycountry_entry.name);
          -- pycountry_country is the alpha-2 *string*, which has no common_name
          -- attribute, so the default pycountry_entry.name is always taken.
          let countryDisplay :=
            if country = "HK" ∨ country = "MO" then "China"
            else if country = "RU" then "Russia"
            else entry.name
          let cityC := if country = "SG" then "" else cityB
          (country, cityC,
           if cityC ≠ "" then cityC ++ ", " ++ countryDisplay else countryDisplay)
      let ccPref := branch.1
      let cityM := branch.2.1
      let loc := branch.2.2
      let inCity : String → Bool := fun pat => containsSub pat.data cityM.data
      let showCity : Bool :=
        !cityM.data.isEmpty &&
        (["US/CA", "DE", "FR", "CN", "RU", "IN", "BR"].contains ccPref ||
         (ccPref == "UK" && !inCity "London") ||
         (ccPref == "JP" && !inCity "Tokyo") ||
         (ccPref == "US/NY" && !inCity "New York") ||
         (ccPref == "AU" && !inCity "Sydney"))
      let line2 :=
        if showCity then "menu = [" ++ ccPref ++ "] " ++ ispShort ++ " (" ++ cityM ++ ")"
        else "menu = [" ++ ccPref ++ "] " ++ ispShort
      let line3 := "title = [" ++ ccPref ++ "] " ++ isp ++ " - " ++ loc ++ " [" ++ address ++ "]"
      let line4 := "host = " ++ address
      ([line1, line2, line3, line4], none)

/-- Whether a `scrape_ips` outcome is the pre-read size-exceeded
`ValueError` of line 60. -/
def isSizeExceededErr : Except ScrapeErr (Option String × Option String) → Bool
  | Except.error (ScrapeErr.sizeExceeded _ _) => true
  | _ => false

deriving instance DecidableEq for Except

/-! ## Helper lemmas -/

theorem isPrefixOf_self (l : List Char) : l.isPrefixOf l = true := by
  induction l with
  | nil => rfl
  | cons c t ih => simp [List.isPrefixOf, ih]

/-- `str.replace` on a string `pre ++ pat` where no character of `pre`
equals the first character of `pat`: the single occurrence at the end is
replaced. -/
theorem replaceAll_append_of_head_notin (c0 : Char) (t rep : List Char) :
    ∀ pre : List Char, (∀ c ∈ pre, (c0 == c) = false) →
      replaceAll (c0 :: t) rep (pre ++ (c0 :: t)) = pre ++ rep := by
  intro pre
  induction pre with
  | nil =>
    intro _
    simp only [List.nil_append]
    rw [replaceAll]
    simp [isPrefixOf_self, List.drop_length, replaceAll]
  | cons c pre2 ih =>
    intro hmem
    have hc : (c0 == c) = false := hmem c (by simp)
    simp only [List.cons_append]
    rw [replaceAll]
    simp only [List.isPrefixOf, hc, Bool.false_and, Bool.and_eq_true, false_and, if_neg,
      Bool.false_eq_true, not_false_eq_true]
    rw [ih fun d hd => hmem d (by simp [hd])]

theorem digitCh_ne_i (n : Nat) : ('i' == digitCh n) = false := by
  have h : ∀ k, k < 10 → ('i' == Char.ofNat (48 + k)) = false := by decide
  have := h (n % 10) (Nat.mod_lt _ (by decide))
  simpa [digitCh] using this

theorem natDigitsGo_ne_i (fuel : Nat) :
    ∀ (n : Nat) (acc : List Char), (∀ c ∈ acc, ('i' == c) = false) →
      ∀ c ∈ natDigitsGo fuel n acc, ('i' == c) = false := by
  induction fuel with
  | zero => intro n acc hacc c hc; exact hacc c hc
  | succ fuel ih =>
    intro n acc hacc c hc
    rw [natDigitsGo] at hc
    by_cases hn : n = 0
    · rw [if_pos hn] at hc; exact hacc c hc
    · rw [if_neg hn] at hc
      exact ih (n / 10) (digitCh n :: acc)
        (fun d hd => by
          rcases List.mem_cons.mp hd with h | h
          · subst h; exact digitCh_ne_i n
          · exact hacc d h) c hc

theorem natDigits_ne_i (n : Nat) : ∀ c ∈ natDigits n, ('i' == c) = false := by
  intro c hc
  rw [natDigits] at hc
  by_cases hn : n = 0
  · rw [if_pos hn] at hc
    simp at hc
    subst hc
    decide
  · rw [if_neg hn] at hc
    exact natDigitsGo_ne_i (n + 1) n [] (by intro d hd; simp at hd) c hc

theorem revDotted4_ne_i (v : Nat) : ∀ c ∈ revDotted4 v, ('i' == c) = false := by
  unfold revDotted4
  simp only [List.forall_mem_append, List.forall_mem_cons]
  exact ⟨⟨⟨natDigits_ne_i _, by decide, natDigits_ne_i _⟩, by decide, natDigits_ne_i _⟩,
    by decide, natDigits_ne_i _⟩

theorem hexCh_ne_i (n : Nat) : ('i' == hexCh (n % 16)) = false := by
  have h : ∀ k, k < 16 → ('i' == hexCh k) = false := by decide
  exact h (n % 16) (Nat.mod_lt _ (by decide))

theorem revNibblesGo_ne_i : ∀ (count v : Nat), ∀ c ∈ revNibblesGo v count, ('i' == c) = false := by
  intro count
  induction count with
  | zero => intro v c hc; simp [revNibblesGo] at hc
  | succ k ih =>
    intro v c hc
    match k, ih with
    | 0, _ =>
      rw [revNibblesGo] at hc
      simp at hc
      subst hc
      exact hexCh_ne_i v
    | kk + 1, ih =>
      rw [revNibblesGo] at hc
      rcases List.mem_cons.mp hc with h | h
      · subst h; exact hexCh_ne_i v
      · rcases List.mem_cons.mp h with h2 | h2
        · subst h2; decide
        · exact ih (v / 16) c h2

theorem revNibbles6_ne_i (v : Nat) : ∀ c ∈ revNibbles6 v, ('i' == c) = false :=
  revNibblesGo_ne_i 32 v

/-- The IPv4 branch of `get_ipinfo`'s `str.replace` rewrites exactly the
`in-addr.arpa` suffix: no earlier occurrence of the pattern exists, since
the reversed dotted quad consists of digits and dots. -/
theorem get_ipinfo_query4 (v : Nat) :
    replaceAll "in-addr.arpa".data "origin.asn.cymru.com".data (reverse_pointer4 v)
      = revDotted4 v ++ ".origin.asn.cymru.com".data := by
  have hpre : ∀ c ∈ revDotted4 v ++ ['.'], ('i' == c) = false := by
    intro c hc
    rcases List.mem_append.mp hc with h | h
    · exact revDotted4_ne_i v c h
    · simp at h; subst h; decide
  have key := replaceAll_append_of_head_notin 'i' "n-addr.arpa".data
      "origin.asn.cymru.com".data (revDotted4 v ++ ['.']) hpre
  have e1 : reverse_pointer4 v = (revDotted4 v ++ ['.']) ++ ('i' :: "n-addr.arpa".data) := by
    rw [reverse_pointer4, List.append_assoc]
    rfl
  have e2 : "in-addr.arpa".data = 'i' :: "n-addr.arpa".data := rfl
  rw [e1, e2, key, List.append_assoc]
  rfl

/-- The IPv6 branch of `get_ipinfo`'s `str.replace` rewrites exactly the
`ip6.arpa` suffix: the reversed nibble string consists of lowercase hex
digits and dots. -/
theorem get_ipinfo_query6 (v : Nat) :
    replaceAll "ip6.arpa".data "origin6.asn.cymru.com".data (reverse_pointer6 v)
      = revNibbles6 v ++ ".origin6.asn.cymru.com".data := by
  have hpre : ∀ c ∈ revNibbles6 v ++ ['.'], ('i' == c) = false := by
    intro c hc
    rcases List.mem_append.mp hc with h | h
    · exact revNibbles6_ne_i v c h
    · simp at h; subst h; decide
  have key := replaceAll_append_of_head_notin 'i' "p6.arpa".data
      "origin6.asn.cymru.com".data (revNibbles6 v ++ ['.']) hpre
  have e1 : reverse_pointer6 v = (revNibbles6 v ++ ['.']) ++ ('i' :: "p6.arpa".data) := by
    rw [reverse_pointer6, List.append_assoc]
    rfl
  have e2 : "ip6.arpa".data = 'i' :: "p6.arpa".data := rfl
  rw [e1, e2, key, List.append_assoc]
  rfl

/-- Per-component update equation for one step of the `force_dns` loop. -/
theorem dnsUpd (netloc : String) (v : Option String) (b r : Bool) :
    (if !pyTruthy (if !pyTruthy v && b then some netloc else v) && r then some netloc
     else if !pyTruthy v && b then some netloc else v)
    = if !pyTruthy v && (b || r) then some netloc else v := by
  cases hv : pyTruthy v <;> cases b <;> simp [hv]

/-- Closed form of the `force_dns` selection loop: each family's slot ends
up holding `netloc` exactly when it started falsy and the list contains an
address of that family. -/
theorem dnsLoop_spec (netloc : String) :
    ∀ (l : List Addr) (v4 v6 : Option String),
      dnsLoop netloc l v4 v6 =
        ((if !pyTruthy v4 && l.any Addr.isV4 then some netloc else v4),
         (if !pyTruthy v6 && l.any Addr.isV6 then some netloc else v6)) := by
  intro l
  induction l with
  | nil => intro v4 v6; simp [dnsLoop]
  | cons ip rest ih =>
    intro v4 v6
    simp only [dnsLoop]
    by_cases hb : (pyTruthy v4 && pyTruthy v6) = true
    · rw [if_pos hb]
      have h4 := ((Bool.and_eq_true _ _).mp hb).1
      have h6 := ((Bool.and_eq_true _ _).mp hb).2
      simp [h4, h6]
    · rw [if_neg hb, ih, List.any_cons, List.any_cons]
      simp only [Prod.mk.injEq]
      exact ⟨dnsUpd netloc v4 ip.isV4 (rest.any Addr.isV4),
             dnsUpd netloc v6 ip.isV6 (rest.any Addr.isV6)⟩

/-- After the size check has passed, no later step of `scrape_ips` can
produce the size-exceeded error: the scan phase raises only
`NameError` / `ValueError` / `AssertionError` or returns. -/
theorem scrapeTail_not_size (netloc : String) (dns : List Addr)
    (textOpt : Option String) (k : Nat) :
    isSizeExceededErr
      ((match textOpt with
        | none => (Except.error ScrapeErr.nameError, k)
        | some text =>
          match scanV4 netloc dns (finditer4 text) none with
          | none => (Except.error ScrapeErr.valueError, k)
          | some ipv4 =>
            if pyTruthy ipv4 || pyTruthy (scanV6 netloc dns (finditer6 text) none) then
              (Except.ok (ipv4, scanV6 netloc dns (finditer6 text) none), k)
            else
              (Except.error ScrapeErr.assertionError, k)) :
        Except ScrapeErr (Option String × Option String) × Nat).1 = false := by
  rcases textOpt with _ | text
  · rfl
  · rcases hs : scanV4 netloc dns (finditer4 text) none with _ | ipv4
    · simp [hs, isSizeExceededErr]
    · by_cases ht : (pyTruthy ipv4 || pyTruthy (scanV6 netloc dns (finditer6 text) none)) = true
      · simp [hs, ht, isSizeExceededErr]
      · simp [hs, ht, isSizeExceededErr]

/-- When the (defaulted) `Content-Length` value does not exceed the
budget, `scrape_ips` does not raise the size-exceeded error. -/
theorem scrape_not_size_of_le (netloc : String) (dns : List Addr)
    (resp : HttpResponse) (maxsize : Nat) (hok : resp.ok = true)
    (hle : resp.contentLength.getD 0 ≤ maxsize) :
    isSizeExceededErr (scrape_ips netloc dns resp false maxsize).1 = false := by
  simp only [scrape_ips, hok]
  rw [if_neg (by simp), if_neg (by simp), if_neg (by omega)]
  exact scrapeTail_not_size netloc dns
    (readChunks maxsize resp.chunks 0 none).1 (readChunks maxsize resp.chunks 0 none).2

/-! ## Claim theorems -/

/-- Claim C1: the claim states that `scrape_ips` never returns a
non-globally-routable address as the accepted candidate for a family.
This theorem refutes it on the code: on a page whose only IPv4-pattern
match is `10.0.0.1` (an address of `10.0.0.0/8`), the candidate is
assigned to `ipv4` *before* the `is_global` test, the `continue` leaves it
in place, and after the loop exhausts `scrape_ips` returns it as the
accepted IPv4 result. -/
theorem scrape_returns_nonglobal_candidate :
    scrape_ips "example.com" [] ⟨true, none, ["10.0.0.1"]⟩ false 65536 =
      (Except.ok (some "10.0.0.1", none), 1) ∧
    finditer4 "10.0.0.1" = ["10.0.0.1"] ∧
    parse_ipv4 "10.0.0.1" = some (mkV4 10 0 0 1) ∧
    inNet4 (mkV4 10 0 0 1) (mkV4 10 0 0 0) 8 = true ∧
    is_global_v4 (mkV4 10 0 0 1) = false := by
  decide

/-- Claim C2: the claim states that
`ConfigFormatter("Test","1.2.3.4","ACME @ DC1","us","ny","Buffalo",2)`
produces a menu line `menu = [US/NY] ACME (Buffalo)` and a title line
with a single-bracket `[US/NY]` prefix.  This theorem shows what the code
actually prints: `cc_prefix` is already `'[US/NY]'` (line 116) and the
output f-strings wrap it in a second pair of brackets, and—because the
city-suffix comparisons test the bracketed `cc_prefix` against the
unbracketed strings `'US/CA'` and `'US/NY'`—no city suffix is emitted. -/
theorem fmt_us_ny_actual_output :
    fmt_smokeping "Test" "1.2.3.4" "ACME @ DC1" "us" "ny" "Buffalo" 2 =
      (["++ Test",
        "menu = [[US/NY]] ACME",
        "title = [[US/NY]] ACME @ DC1 - Buffalo, NY, US [1.2.3.4]",
        "host = 1.2.3.4"], none) := by
  decide

/-- Claim C3: the claim states that the pattern search runs over the
accumulated decoded text of all chunks.  This theorem refutes it on the
code: `text` is reassigned (not appended) per chunk, so with budget 8 and
body chunks `"1.2.3.4!"` and `"zzz"` the search sees only `"zzz"`, finds
nothing, and the run dies on `assert ipv4 or ipv6` — even though the
accumulated text contains the global literal `1.2.3.4`, which the IPv4
pattern finds. -/
theorem scrape_searches_only_final_chunk :
    scrape_ips "example.com" [] ⟨true, none, ["1.2.3.4!", "zzz"]⟩ false 8 =
      (Except.error ScrapeErr.assertionError, 2) ∧
    (readChunks 8 ["1.2.3.4!", "zzz"] 0 none).1 = some "zzz" ∧
    finditer4 "zzz" = [] ∧
    finditer4 ("1.2.3.4!" ++ "zzz") = ["1.2.3.4"] ∧
    is_global_v4 (mkV4 1 2 3 4) = true := by
  decide

/-- Claim C4, counterexample: with the unknown country code `"xx"` the
formatter does raise the precondition failure, but it has already printed
the entry-name header line — the output is not empty, contradicting
"produces no output at all". -/
theorem fmt_unknown_country_header_printed :
    fmt_smokeping "Test" "1.2.3.4" "ACME" "xx" "" "City" 2 =
      (["++ Test"], some FmtErr.assertCountry) ∧
    (fmt_smokeping "Test" "1.2.3.4" "ACME" "xx" "" "City" 2).1 ≠ ([] : List String) := by
  decide

/-- Claim C4, amended: for every country code that does not resolve
against the ISO table (after the `UK`→`GB` alias), the formatter raises
the fatal precondition failure after emitting exactly the entry-name
header line and nothing else — no menu, title or host line. -/
theorem fmt_unknown_country_only_header (n a i c p ci : String) (L : Int)
    (hL : 0 ≤ L)
    (h : pycountry_get (if pyUpper c = "UK" then "GB" else pyUpper c) = none) :
    fmt_smokeping n a i c p ci L =
      ([String.mk (List.replicate L.toNat '+') ++ " " ++ n], some FmtErr.assertCountry) := by
  have hneg : ¬ L < 0 := by omega
  simp [fmt_smokeping, hneg, h]

/-- Witness for `fmt_unknown_country_only_header` at a concrete input. -/
theorem fmt_unknown_country_only_header_witness :
    fmt_smokeping "Name" "5.6.7.8" "ISP" "ZZ" "" "Town" 3 =
      ([String.mk (List.replicate (3 : Int).toNat '+') ++ " " ++ "Name"],
       some FmtErr.assertCountry) :=
  fmt_unknown_country_only_header "Name" "5.6.7.8" "ISP" "ZZ" "" "Town" 3
    (by decide) (by decide)

/-- Claim C5: the claim states that when no accepted globally-routable
address exists for either family, `scrape_ips` aborts with a fatal
failure rather than returning.  This theorem refutes it on the code: on a
page whose only candidate is `127.0.0.1` (loopback, rejected by
`is_global`), the leaked loop variable keeps the rejected literal, the
`assert ipv4 or ipv6` sees a truthy string, and `scrape_ips` returns
normally. -/
theorem scrape_returns_without_global_accept :
    scrape_ips "example.com" [] ⟨true, none, ["127.0.0.1"]⟩ false 65536 =
      (Except.ok (some "127.0.0.1", none), 1) ∧
    is_global_v4 (mkV4 127 0 0 1) = false := by
  decide

/-- Claim C6: when a `Content-Length` header is present and exceeds the
budget, `scrape_ips` raises the size-exceeded `ValueError` before any
body read: for every chunk list whatsoever the result is the error and
the count of chunks pulled from `iter_content` is zero. -/
theorem scrape_size_exceeded_before_read (netloc : String) (dns : List Addr)
    (resp : HttpResponse) (maxsize n : Nat)
    (hok : resp.ok = true) (hcl : resp.contentLength = some n) (hn : maxsize < n) :
    scrape_ips netloc dns resp false maxsize =
      (Except.error (ScrapeErr.sizeExceeded n maxsize), 0) := by
  simp [scrape_ips, hok, hcl, hn]

/-- Witness for `scrape_size_exceeded_before_read`. -/
theorem scrape_size_exceeded_before_read_witness :
    scrape_ips "example.com" [] ⟨true, some 70000, ["body"]⟩ false 65536 =
      (Except.error (ScrapeErr.sizeExceeded 70000 65536), 0) :=
  scrape_size_exceeded_before_read "example.com" [] ⟨true, some 70000, ["body"]⟩
    65536 70000 rfl rfl (by decide)

/-- Claim C7: in DNS-only mode `scrape_ips` returns, per address family
present in the resolved set, the hostname itself (never the literal IP),
at most one result per family, and returns two empty results without
raising when neither family is present. -/
theorem scrape_force_dns_uses_hostname (netloc : String) (dns : List Addr)
    (resp : HttpResponse) (maxsize : Nat) :
    scrape_ips netloc dns resp true maxsize =
      (Except.ok ((if dns.any Addr.isV4 then some netloc else none),
                  (if dns.any Addr.isV6 then some netloc else none)), 0) := by
  simp [scrape_ips, dnsLoop_spec, pyTruthy]

/-- Claim C8: `get_ipinfo` queries the TXT record of the address's
reverse-pointer form rewritten to `origin.asn.cymru.com` (IPv4) or
`origin6.asn.cymru.com` (IPv6), and returns the first TXT record's text
on success or a diagnostic `{class}: {message}` string on any resolution
error; being a total function of the resolver's outcome, it never raises
to its caller. -/
theorem get_ipinfo_matches_cymru (resolve : String → DnsOutcome) (ip : Addr) :
    get_ipinfo resolve ip =
      match resolve (cymru_query ip) with
      | DnsOutcome.err cls msg => cls ++ ": " ++ msg
      | DnsOutcome.ok first _ => first := by
  cases ip with
  | v4 v =>
    exact congrArg (fun l => match resolve (String.mk l) with
      | DnsOutcome.err cls msg => cls ++ ": " ++ msg
      | DnsOutcome.ok first _ => first) (get_ipinfo_query4 v)
  | v6 v =>
    exact congrArg (fun l => match resolve (String.mk l) with
      | DnsOutcome.err cls msg => cls ++ ": " ++ msg
      | DnsOutcome.ok first _ => first) (get_ipinfo_query6 v)

/-- Claim C9: with a successful status, the pre-read size-exceeded error
is raised if and only if a `Content-Length` header is present and its
value exceeds the budget; a missing header is read as `0` and can never
trigger it, whatever the body. -/
theorem scrape_size_error_iff_header (netloc : String) (dns : List Addr)
    (resp : HttpResponse) (maxsize : Nat) (hok : resp.ok = true) :
    isSizeExceededErr (scrape_ips netloc dns resp false maxsize).1 = true ↔
      ∃ n, resp.contentLength = some n ∧ maxsize < n := by
  rcases hcl : resp.contentLength with _ | n
  · rw [scrape_not_size_of_le netloc dns resp maxsize hok (by simp [hcl])]
    simp [hcl]
  · by_cases hn : maxsize < n
    · simp [scrape_ips, hok, hcl, hn, isSizeExceededErr]
    · rw [scrape_not_size_of_le netloc dns resp maxsize hok (by simp [hcl]; omega)]
      simp [hcl]
      omega

/-- Witness for `scrape_size_error_iff_header`: with no `Content-Length`
header the size error is not raised. -/
theorem scrape_size_error_iff_header_witness :
    isSizeExceededErr (scrape_ips "example.com" [] ⟨true, none, ["10.0.0.1"]⟩ false 65536).1
      = false := by
  cases hb : isSizeExceededErr (scrape_ips "example.com" [] ⟨true, none, ["10.0.0.1"]⟩ false 65536).1
  · rfl
  · rcases (scrape_size_error_iff_header "example.com" []
        ⟨true, none, ["10.0.0.1"]⟩ 65536 rfl).mp hb with ⟨n, hn, _⟩
    exact Option.noConfusion hn

/-- Claim C10: outside the US/CA branch the province argument does not
influence any output line — two invocations differing only in the
province produce identical output. -/
theorem fmt_province_independent_outside_us_ca (n a i c p1 p2 ci : String) (L : Int)
    (h1 : pyUpper c ≠ "US") (h2 : pyUpper c ≠ "CA") :
    fmt_smokeping n a i c p1 ci L = fmt_smokeping n a i c p2 ci L := by
  simp [fmt_smokeping, h1, h2]

/-- Witness for `fmt_province_independent_outside_us_ca`. -/
theorem fmt_province_independent_outside_us_ca_witness :
    fmt_smokeping "T" "5.6.7.8" "Acme" "de" "AA" "Berlin" 2 =
      fmt_smokeping "T" "5.6.7.8" "Acme" "de" "BB" "Berlin" 2 :=
  fmt_province_independent_outside_us_ca "T" "5.6.7.8" "Acme" "de" "AA" "BB" "Berlin" 2
    (by decide) (by decide)

end SmokepingAdd
